import Mathlib

/-!
Verification of the restreamer supervisor bootstrap (`src/start.js` and
`src/webserver/app.js`) against its natural-language specification.

The JavaScript source is shallowly embedded: JSON documents become an
inductive `Json` type, the on-disk db file becomes an `Option String`
(`none` when the file is absent or unreadable), the promise chain of
`checkJsonDb` becomes a total function returning a `PromiseOutcome`
together with the new disk content, and the callback-chained startup
sequence becomes an explicit, ordered sequence of `World` transformers
recording an event log.  External library behaviour (the platform JSON
parser and the `jsonschema` validator together with the schema file,
which is not part of the sources) is abstracted into a `JsonDbEnv`
record of arbitrary deterministic functions.
-/

mutual

/-- JSON values as used by the db document of `start.js`: strings and
objects with ordered fields suffice for the default structure. -/
inductive Json where
  | str : String → Json
  | obj : JsonFields → Json

/-- Ordered field list of a JSON object, kept as its own inductive so
that recursion over documents stays structural. -/
inductive JsonFields where
  | nil : JsonFields
  | cons : String → Json → JsonFields → JsonFields

end

mutual

/-- Serialization of a document, mirroring `JSON.stringify` with no
extra spacing: keys and string values are double-quoted, object fields
keep their insertion order inside braces. -/
def Json.stringify : Json → String
  | Json.str s => "\"" ++ s ++ "\""
  | Json.obj kvs => "\x7b" ++ JsonFields.stringifyFields kvs ++ "\x7d"

/-- Serialization of an object's field list, comma-separated. -/
def JsonFields.stringifyFields : JsonFields → String
  | JsonFields.nil => ""
  | JsonFields.cons k v JsonFields.nil => "\"" ++ k ++ "\":" ++ Json.stringify v
  | JsonFields.cons k v r =>
    "\"" ++ k ++ "\":" ++ Json.stringify v ++ "," ++ JsonFields.stringifyFields r

end

/-- Key list of an object's field list, in document order. -/
def JsonFields.names : JsonFields → List String
  | JsonFields.nil => []
  | JsonFields.cons k _ r => k :: JsonFields.names r

/-- Top-level keys of a JSON object (in document order). -/
def Json.keys : Json → List String
  | Json.obj kvs => kvs.names
  | _ => []

/-- Field lookup in an object's field list. -/
def JsonFields.lookupField : JsonFields → String → Option Json
  | JsonFields.nil, _ => none
  | JsonFields.cons k v r, key => if k = key then some v else r.lookupField key

/-- Field lookup in a JSON object. -/
def Json.getField : Json → String → Option Json
  | Json.obj kvs, k => kvs.lookupField k
  | _, _ => none

/-- Convenience constructor for object documents. -/
def Json.mkObj (kvs : List (String × Json)) : Json :=
  Json.obj (kvs.foldr (fun kv r => JsonFields.cons kv.1 kv.2 r) JsonFields.nil)

/-- The `defaultStructure` document written by the `catch` branch of
`checkJsonDb` (`src/start.js` lines 115-136), transcribed field for
field in source order. -/
def defaultStructure : Json :=
  Json.mkObj [
    ("addresses", Json.mkObj [
      ("srcAddress", Json.str ""),
      ("optionalOutputAddress", Json.str "")]),
    ("states", Json.mkObj [
      ("repeatToLocalNginx", Json.mkObj [("type", Json.str "stopped")]),
      ("repeatToOptionalOutput", Json.mkObj [("type", Json.str "stopped")])]),
    ("userActions", Json.mkObj [
      ("repeatToLocalNginx", Json.str "stop"),
      ("repeatToOptionalOutput", Json.str "stop")]),
    ("progresses", Json.mkObj [
      ("repeatToLocalNginx", Json.mkObj []),
      ("repeatToOptionalOutput", Json.mkObj [])])]

/-- Environment of `checkJsonDb` that is external to `start.js`: the
content of `conf/jsondb_v1_schema.json` (`none` when unreadable), the
platform JSON parser (`none` models a `JSON.parse` throw), and the
`jsonschema` validator applied to a schema and an instance (`false`
models a non-empty `validateResult.errors`). -/
structure JsonDbEnv where
  schemaFile : Option String
  parseJson : String → Option Json
  validate : Json → Json → Bool

/-- Outcome of a `Q` promise in this embedding. -/
inductive PromiseOutcome where
  | resolved
  | rejected
deriving DecidableEq

/-- One step of an in-place file write: `fs.writeFileSync` on an
existing path opens with flag `w`, which first truncates the file,
then writes the data. -/
inductive WriteOp where
  | truncate
  | chunk : String → WriteOp

/-- Effect of one write step on the disk content. -/
def applyOp (disk : Option String) : WriteOp → Option String
  | WriteOp.truncate => some ""
  | WriteOp.chunk s => some (disk.getD "" ++ s)

/-- Effect of a sequence of write steps on the disk content. -/
def applyOps (disk : Option String) (ops : List WriteOp) : Option String :=
  ops.foldl applyOp disk

/-- Steps performed by `fs.writeFileSync(path, data)` on the db path:
truncate in place, then write the full data. -/
def writeFileSyncOps (data : String) : List WriteOp :=
  [WriteOp.truncate, WriteOp.chunk data]

/-- Disk content left behind when the process crashes after the first
`n` steps of a write sequence. -/
def crashDuring (disk : Option String) (ops : List WriteOp) (n : Nat) : Option String :=
  applyOps disk (ops.take n)

/-- The read-parse-validate chain of `checkJsonDb` (`src/start.js`
lines 92-112): read and parse the schema file, read and parse the db
file, run the validator; `false` when any step fails (which in the
source throws into the `catch` handler). -/
def tryValidateDb (env : JsonDbEnv) (db : Option String) : Bool :=
  match env.schemaFile.bind env.parseJson with
  | none => false
  | some schema =>
    match db.bind env.parseJson with
    | none => false
    | some inst => env.validate schema inst

/-- The whole of `checkJsonDb` (`src/start.js` lines 82-141) acting on
the db file content: when the chain succeeds the deferred resolves and
nothing is written; on any failure the `catch` handler writes
`JSON.stringify(defaultStructure)` with `fs.writeFileSync` and then
resolves. -/
def checkJsonDb (env : JsonDbEnv) (db : Option String) : PromiseOutcome × Option String :=
  if tryValidateDb env db then
    (PromiseOutcome.resolved, db)
  else
    (PromiseOutcome.resolved, applyOps db (writeFileSyncOps (Json.stringify defaultStructure)))

/-- One declared environment variable, as constructed by
`new EnvVar(name, required, defaultValue, description)` in
`src/start.js` lines 50-54 (the `EnvVar` class is a plain record of
those four constructor arguments, read back as `e.name`, `e.required`,
`e.defaultValue`, `e.description` in the loop). -/
structure EnvVar where
  name : String
  required : Bool
  defaultValue : String
  description : String

/-- The declared variable list of `src/start.js` lines 50-54; the
numeric defaults 3000 and 60000 are environment strings. -/
def env_vars : List EnvVar :=
  [⟨"NODEJS_PORT", false, "3000", "Webserver port of application"⟩,
   ⟨"LOGGER_LEVEL", true, "3", "Logger level to defined, what should be logged"⟩,
   ⟨"TIMEZONE", true, "Europe/Berlin", "Set the timezone"⟩,
   ⟨"SNAPSHOT_REFRESH_INTERVAL", false, "60000", "Interval to create a new Snapshot"⟩,
   ⟨"CREATE_HEAPDUMPS", false, "false", "Create Heapdumps of application"⟩]

/-- The process environment: `process.env[n]` is `none` exactly when
`typeof process.env[n] === 'undefined'`. -/
def Envt : Type := String → Option String

/-- Assignment `process.env[k] = v`. -/
def setEnv (env : Envt) (k v : String) : Envt :=
  fun n => if n = k then some v else env n

/-- The pre-loop default of `src/start.js` lines 29-31: if
`LOGGER_LEVEL` is undefined it is set to the string `'3'`. -/
def preDefaultLoggerLevel (env : Envt) : Envt :=
  match env "LOGGER_LEVEL" with
  | some _ => env
  | none => setEnv env "LOGGER_LEVEL" "3"

/-- One iteration of the `for (let e of env_vars)` loop of
`src/start.js` lines 58-68 on the pair (environment, killProcess):
a set variable is only logged, an unset required variable flags
`killProcess`, an unset optional variable receives its default. -/
def stepEnvVar (acc : Envt × Bool) (e : EnvVar) : Envt × Bool :=
  match acc.1 e.name with
  | some _ => acc
  | none =>
    if e.required then (acc.1, true)
    else (setEnv acc.1 e.name e.defaultValue, acc.2)

/-- The whole environment bootstrap of `src/start.js` lines 29-75:
the `LOGGER_LEVEL` pre-default, then the loop over `env_vars` with
`killProcess` initially `false`; the returned flag decides whether
`process.exit()` is scheduled (lines 71-75). -/
def bootstrapEnv (env : Envt) : Envt × Bool :=
  env_vars.foldl stepEnvVar (preDefaultLoggerLevel env, false)

/-- Observable events of the startup sequence, one per call site in
`src/start.js` (chain at lines 206-217) and in the listen callback of
`startWebserver` (lines 165-172); `createWsDeferred` is the
`createPromiseForWebsockets` call run while the app module loads
(`src/webserver/app.js` lines 113-115, called from `initAlways`). -/
inductive Event where
  | createWsDeferred
  | spawnNginx
  | checkDb
  | listen
  | bindWsEvents
  | attachSocket
  | resolveWsReady
  | restore
  | publicIp
deriving DecidableEq

/-- Program state threaded through the startup chain: the event log,
the db file content, the socket handle stored under the `io` key
(`app.set('io', ...)`), the value the `websocketsReady` deferred was
resolved with (`none` while pending), and whether the HTTP server is
listening. -/
structure World where
  log : List Event
  db : Option String
  ioHandle : Option Nat
  wsReady : Option Nat
  listening : Bool

/-- State after the app module is loaded (`require('./webserver/app')`,
`src/start.js` line 17): the express app is constructed and
`createPromiseForWebsockets` has installed a pending deferred. -/
def initApp (db : Option String) : World :=
  { log := [Event.createWsDeferred], db := db, ioHandle := none,
    wsReady := none, listening := false }

/-- The `startNginxRTMPServer` step (`src/start.js` lines 147-155):
spawns the server and resolves immediately. -/
def stepNginx (w : World) : World :=
  { w with log := w.log ++ [Event.spawnNginx] }

/-- The `checkJsonDb` step acting on the world: runs `checkJsonDb` on
the current db file content. -/
def stepCheckDb (env : JsonDbEnv) (w : World) : World :=
  { w with db := (checkJsonDb env w.db).2, log := w.log ++ [Event.checkDb] }

/-- The `startWebserver` step (`src/start.js` lines 161-174): the
server starts listening, and inside the listen callback the default
websocket events are bound, the socket handle is attached with
`app.set('io', ...)`, and the `websocketsReady` deferred is resolved
with `app.get('io')`. -/
def stepWebserver (w : World) : World :=
  let w1 := { w with listening := true, log := w.log ++ [Event.listen] }
  let w2 := { w1 with log := w1.log ++ [Event.bindWsEvents] }
  let w3 := { w2 with ioHandle := some 0, log := w2.log ++ [Event.attachSocket] }
  { w3 with wsReady := w3.ioHandle, log := w3.log ++ [Event.resolveWsReady] }

/-- The `restoreFFMPEGProcesses` step (`src/start.js` lines 194-201):
calls `Restreamer.restoreFFMpegProcesses()` and resolves. -/
def stepRestore (w : World) : World :=
  { w with log := w.log ++ [Event.restore] }

/-- The `getPublicIp` step (`src/start.js` lines 179-188). -/
def stepPublicIp (w : World) : World :=
  { w with log := w.log ++ [Event.publicIp] }

/-- The startup chain of `src/start.js` lines 206-217, in source
order: nginx, first `checkJsonDb`, webserver, second `checkJsonDb`,
restore, public ip; each `.then` continuation runs only after the
previous step resolved, and every step in this model resolves. -/
def runStartup (env : JsonDbEnv) (db : Option String) : World :=
  stepPublicIp (stepRestore (stepCheckDb env (stepWebserver (stepCheckDb env (stepNginx (initApp db))))))

/-- The event log of every startup run, independent of the store
content and of the schema environment. -/
def fullStartupLog : List Event :=
  [Event.createWsDeferred, Event.spawnNginx, Event.checkDb, Event.listen,
   Event.bindWsEvents, Event.attachSocket, Event.resolveWsReady,
   Event.checkDb, Event.restore, Event.publicIp]

/-- The persisted user intent of a slot (`userActions` in the db). -/
inductive UserAction where
  | start
  | stop
deriving DecidableEq

/-- The persisted run state of a slot (`states.<slot>.type`). -/
inductive RunStateT where
  | stopped
  | starting
  | started
  | stopping
  | error
deriving DecidableEq

/-- Modelled from the spec: `Restreamer.restoreFFMpegProcesses`
(`src/classes/Restreamer.js` is not among the sources; only its caller
`restoreFFMPEGProcesses` in `src/start.js` lines 194-201 is).  Per
spec section 4.4, for each slot with persisted `userIntent = start`
the supervisor re-spawns the subprocess and drives the slot back to
`starting`; a slot with `userIntent = stop` ends `stopped` regardless
of its persisted run state. -/
def restoreSlot : UserAction → RunStateT → RunStateT
  | UserAction.start, _ => RunStateT.starting
  | UserAction.stop, _ => RunStateT.stopped

/-- Modelled from the spec: restore of both slots from a freshly
loaded document, each slot given as (persisted intent, persisted run
state). -/
def restoreAll (slotA slotB : UserAction × RunStateT) : RunStateT × RunStateT :=
  (restoreSlot slotA.1 slotA.2, restoreSlot slotB.1 slotB.2)

/-- Helper: a run of `fs.writeFileSync` to completion replaces the disk
content with exactly the written data. -/
theorem writeFileSync_writes (disk : Option String) (data : String) :
    applyOps disk (writeFileSyncOps data) = some data := rfl

/-- Helper: the startup event log is the same for every schema
environment and every initial db file content. -/
theorem runStartup_log (env : JsonDbEnv) (db : Option String) :
    (runStartup env db).log = fullStartupLog := rfl

/-- An environment in which every read, parse and validation step of
`checkJsonDb` fails. -/
def cEnv : JsonDbEnv :=
  { schemaFile := none, parseJson := fun _ => none, validate := fun _ _ => false }

/-- An environment in which the schema is readable and every document
parses and validates. -/
def validEnv : JsonDbEnv :=
  { schemaFile := some "schema",
    parseJson := fun _ => some (Json.obj JsonFields.nil),
    validate := fun _ _ => true }

/-- The everywhere-undefined process environment. -/
def emptyEnv : Envt := fun _ => none

/-- C1: `checkJsonDb` always resolves — on the valid branch and on the
failure branch alike — and on any read, parse or validation failure it
replaces the on-disk content with the serialized default document, so
store corruption at startup is handled by falling back to defaults
rather than aborting. -/
theorem checkJsonDb_always_resolves (env : JsonDbEnv) (db : Option String) :
    (checkJsonDb env db).1 = PromiseOutcome.resolved ∧
    (tryValidateDb env db = false →
      (checkJsonDb env db).2 = some (Json.stringify defaultStructure)) := by
  constructor
  · by_cases h : tryValidateDb env db <;> simp [checkJsonDb, h]
  · intro h
    simp [checkJsonDb, h, writeFileSync_writes]

/-- Witness for C1 at the concrete failing environment `cEnv` with an
absent db file. -/
theorem checkJsonDb_always_resolves_witness :
    (checkJsonDb cEnv none).1 = PromiseOutcome.resolved ∧
    (checkJsonDb cEnv none).2 = some (Json.stringify defaultStructure) :=
  ⟨(checkJsonDb_always_resolves cEnv none).1,
   (checkJsonDb_always_resolves cEnv none).2 rfl⟩

/-- C2 counterexample: in the fallback `defaultStructure` the
`addresses` object is keyed by `srcAddress` and
`optionalOutputAddress`, not by the two slot names, so the claim that
all four sections are keyed by the slot names is false on the document
the code writes. -/
theorem fallback_addresses_keys_counterexample :
    Json.keys ((defaultStructure.getField "addresses").getD (Json.obj JsonFields.nil))
      = ["srcAddress", "optionalOutputAddress"] ∧
    "repeatToLocalNginx" ∉
      Json.keys ((defaultStructure.getField "addresses").getD (Json.obj JsonFields.nil)) ∧
    "repeatToOptionalOutput" ∉
      Json.keys ((defaultStructure.getField "addresses").getD (Json.obj JsonFields.nil)) := by
  decide

/-- C2 (amended): the document has the four required top-level keys
`addresses`, `states`, `userActions`, `progresses`; `states`,
`userActions` and `progresses` are each keyed by the two fixed slot
names, while the `addresses` object written on fallback is keyed by
`srcAddress` and `optionalOutputAddress`. -/
theorem defaultStructure_section_keys :
    defaultStructure.keys = ["addresses", "states", "userActions", "progresses"] ∧
    (defaultStructure.getField "states").map Json.keys
      = some ["repeatToLocalNginx", "repeatToOptionalOutput"] ∧
    (defaultStructure.getField "userActions").map Json.keys
      = some ["repeatToLocalNginx", "repeatToOptionalOutput"] ∧
    (defaultStructure.getField "progresses").map Json.keys
      = some ["repeatToLocalNginx", "repeatToOptionalOutput"] ∧
    (defaultStructure.getField "addresses").map Json.keys
      = some ["srcAddress", "optionalOutputAddress"] := by
  decide

/-- C3 counterexample: in the startup chain the webserver starts
listening (event index 3) strictly before the restore step runs
(event index 8), so the program accepts commands before restore
completes, contrary to the claim. -/
theorem startup_webserver_before_restore :
    (runStartup cEnv none).log.indexOf Event.listen = 3 ∧
    (runStartup cEnv none).log.indexOf Event.restore = 8 ∧
    ¬ (runStartup cEnv none).log.indexOf Event.restore
        < (runStartup cEnv none).log.indexOf Event.listen := by
  decide

/-- C3 (amended): the startup sequence loads and validates the store
before restore, and restore is invoked exactly once per program start,
strictly after the store load — but the webserver is already up and
accepting commands before restore runs, not after it. -/
theorem startup_restore_once_after_load (env : JsonDbEnv) (db : Option String) :
    (runStartup env db).log.count Event.restore = 1 ∧
    (runStartup env db).log.indexOf Event.checkDb
      < (runStartup env db).log.indexOf Event.restore ∧
    (runStartup env db).log.indexOf Event.listen
      < (runStartup env db).log.indexOf Event.restore := by
  rw [runStartup_log]
  decide

/-- C4: the default document written when the store is absent or
corrupt has exactly both slots' states `stopped`, both slots'
userActions `stop`, empty-string addresses, and empty progress objects
for both slots. -/
theorem defaultStructure_two_stopped_slots :
    ((defaultStructure.getField "states").bind
      (fun j => (j.getField "repeatToLocalNginx").bind
        (fun k => k.getField "type"))) = some (Json.str "stopped") ∧
    ((defaultStructure.getField "states").bind
      (fun j => (j.getField "repeatToOptionalOutput").bind
        (fun k => k.getField "type"))) = some (Json.str "stopped") ∧
    ((defaultStructure.getField "userActions").bind
      (fun j => j.getField "repeatToLocalNginx")) = some (Json.str "stop") ∧
    ((defaultStructure.getField "userActions").bind
      (fun j => j.getField "repeatToOptionalOutput")) = some (Json.str "stop") ∧
    ((defaultStructure.getField "addresses").bind
      (fun j => j.getField "srcAddress")) = some (Json.str "") ∧
    ((defaultStructure.getField "addresses").bind
      (fun j => j.getField "optionalOutputAddress")) = some (Json.str "") ∧
    ((defaultStructure.getField "progresses").bind
      (fun j => j.getField "repeatToLocalNginx")) = some (Json.obj JsonFields.nil) ∧
    ((defaultStructure.getField "progresses").bind
      (fun j => j.getField "repeatToOptionalOutput")) = some (Json.obj JsonFields.nil) :=
  ⟨rfl, rfl, rfl, rfl, rfl, rfl, rfl, rfl⟩

/-- C5: loading a valid document does not modify the on-disk file —
whenever the schema is readable and the document parses and validates,
`checkJsonDb` resolves and leaves the file's exact bytes (field order
included) untouched. -/
theorem checkJsonDb_valid_preserves_file (env : JsonDbEnv) (s d : String)
    (schema inst : Json)
    (hs : env.schemaFile = some s) (hps : env.parseJson s = some schema)
    (hpd : env.parseJson d = some inst) (hv : env.validate schema inst = true) :
    checkJsonDb env (some d) = (PromiseOutcome.resolved, some d) := by
  have hval : tryValidateDb env (some d) = true := by
    simp [tryValidateDb, hs, hps, hpd, hv]
  simp [checkJsonDb, hval]

/-- Witness for C5 at the concrete accepting environment `validEnv`
and the document bytes `"doc"`. -/
theorem checkJsonDb_valid_preserves_file_witness :
    checkJsonDb validEnv (some "doc") = (PromiseOutcome.resolved, some "doc") :=
  checkJsonDb_valid_preserves_file validEnv "schema" "doc"
    (Json.obj JsonFields.nil) (Json.obj JsonFields.nil) rfl rfl rfl rfl

/-- C6 counterexample: the store write is a plain in-place
`fs.writeFileSync`; a crash after the truncate step but before the
data step leaves an empty file that is neither the previous valid
document nor the new one, so a crash mid-write can leave a
half-written document. -/
theorem writeFileSync_crash_counterexample :
    crashDuring (some "\x7b\"old\":\"doc\"\x7d")
      (writeFileSyncOps (Json.stringify defaultStructure)) 1 = some "" ∧
    (some "" : Option String) ≠ some "\x7b\"old\":\"doc\"\x7d" ∧
    (some "" : Option String) ≠ some (Json.stringify defaultStructure) := by
  refine ⟨rfl, ?_, ?_⟩ <;> decide

/-- C6 (amended): the persisted document is written with a plain
in-place `fs.writeFileSync` (truncate, then write), not
write-then-rename: a write run to completion replaces the content with
exactly the new document, but the write is not atomic — a crash before
any step leaves the previous content, while a crash between the
truncate and the data step leaves an empty file rather than the
previous valid copy. -/
theorem writeFileSync_complete_and_crash (disk : Option String) (data : String) :
    applyOps disk (writeFileSyncOps data) = some data ∧
    crashDuring disk (writeFileSyncOps data) 0 = disk ∧
    crashDuring disk (writeFileSyncOps data) 1 = some "" :=
  ⟨rfl, rfl, rfl⟩

/-- C7: after restore on a freshly loaded document, a slot whose
persisted userIntent is start is driven to runState starting whatever
its persisted runState was, and a slot whose persisted userIntent is
stop ends stopped whatever its persisted runState was; in particular
the spec's restart-on-restore scenario (slotA start/started, slotB
stop/error) yields (starting, stopped). -/
theorem restoreAll_intent_driven (sa sb : RunStateT) :
    restoreSlot UserAction.start sa = RunStateT.starting ∧
    restoreSlot UserAction.stop sb = RunStateT.stopped ∧
    restoreAll (UserAction.start, RunStateT.started) (UserAction.stop, RunStateT.error)
      = (RunStateT.starting, RunStateT.stopped) := by
  refine ⟨?_, ?_, rfl⟩ <;> cases sa <;> cases sb <;> rfl

/-- C8: for every declared environment variable the bootstrap keeps a
set value unchanged, assigns the declared default to an unset
non-required variable, and schedules process exit exactly when a
required variable is still unset — which, `LOGGER_LEVEL` being
pre-defaulted to `'3'` before the loop, happens exactly when
`TIMEZONE` is unset. -/
theorem bootstrapEnv_spec (env : Envt) :
    (∀ e : EnvVar, e ∈ env_vars → ∀ v : String, env e.name = some v →
      (bootstrapEnv env).1 e.name = some v) ∧
    (∀ e : EnvVar, e ∈ env_vars → e.required = false → env e.name = none →
      (bootstrapEnv env).1 e.name = some e.defaultValue) ∧
    ((bootstrapEnv env).2 = true ↔ env "TIMEZONE" = none) := by
  refine ⟨?_, ?_, ?_⟩
  · intro e he v h
    simp [env_vars] at he
    unfold bootstrapEnv env_vars preDefaultLoggerLevel
    rcases he with he | he | he | he | he <;> subst he <;> simp at h <;>
      cases h1 : env "LOGGER_LEVEL" <;>
      cases h0 : env "NODEJS_PORT" <;> cases h2 : env "TIMEZONE" <;>
      cases h3 : env "SNAPSHOT_REFRESH_INTERVAL" <;> cases h4 : env "CREATE_HEAPDUMPS" <;>
      simp_all [stepEnvVar, setEnv]
  · intro e he hr h
    simp [env_vars] at he
    unfold bootstrapEnv env_vars preDefaultLoggerLevel
    rcases he with he | he | he | he | he <;> subst he <;> simp at h hr ⊢ <;>
      cases h1 : env "LOGGER_LEVEL" <;>
      cases h0 : env "NODEJS_PORT" <;> cases h2 : env "TIMEZONE" <;>
      cases h3 : env "SNAPSHOT_REFRESH_INTERVAL" <;> cases h4 : env "CREATE_HEAPDUMPS" <;>
      simp_all [stepEnvVar, setEnv]
  · unfold bootstrapEnv env_vars preDefaultLoggerLevel
    cases h1 : env "LOGGER_LEVEL" <;>
      cases h0 : env "NODEJS_PORT" <;> cases h2 : env "TIMEZONE" <;>
      cases h3 : env "SNAPSHOT_REFRESH_INTERVAL" <;> cases h4 : env "CREATE_HEAPDUMPS" <;>
      simp [stepEnvVar, setEnv, h0, h1, h2, h3, h4]

/-- Witness for C8 at the everywhere-undefined environment: the kill
flag is raised (TIMEZONE is unset) and the unset optional
`NODEJS_PORT` receives its declared default. -/
theorem bootstrapEnv_spec_witness :
    (bootstrapEnv emptyEnv).2 = true ∧
    (bootstrapEnv emptyEnv).1 "NODEJS_PORT" = some "3000" := by
  have h := bootstrapEnv_spec emptyEnv
  refine ⟨h.2.2.mpr rfl, ?_⟩
  exact h.2.1 ⟨"NODEJS_PORT", false, "3000", "Webserver port of application"⟩
    (by simp [env_vars]) rfl rfl

/-- C9: `checkJsonDb` is idempotent on disk — running it a second time
on the file content left behind by a first run resolves again and
leaves the on-disk bytes unchanged, so the double invocation in the
startup chain is safe. -/
theorem checkJsonDb_idempotent_on_disk (env : JsonDbEnv) (db : Option String) :
    checkJsonDb env ((checkJsonDb env db).2) = checkJsonDb env db := by
  by_cases h1 : tryValidateDb env db
  · have h : checkJsonDb env db = (PromiseOutcome.resolved, db) := by
      simp [checkJsonDb, h1]
    rw [h]
    exact h
  · have h : checkJsonDb env db
        = (PromiseOutcome.resolved, some (Json.stringify defaultStructure)) := by
      simp [checkJsonDb, h1, writeFileSync_writes]
    rw [h]
    by_cases h2 : tryValidateDb env (some (Json.stringify defaultStructure))
    · simp [checkJsonDb, h2]
    · simp [checkJsonDb, h2, writeFileSync_writes]

/-- C10: the `websocketsReady` deferred created before the HTTP server
starts is resolved exactly once, only after the server is listening
and after the socket handle has been attached, and it is resolved with
precisely that socket handle; before the webserver step it is still
pending. -/
theorem websocketsReady_resolved_once_after_listen (env : JsonDbEnv) (db : Option String) :
    (runStartup env db).log.count Event.resolveWsReady = 1 ∧
    (runStartup env db).log.indexOf Event.listen
      < (runStartup env db).log.indexOf Event.resolveWsReady ∧
    (runStartup env db).log.indexOf Event.attachSocket
      < (runStartup env db).log.indexOf Event.resolveWsReady ∧
    (runStartup env db).wsReady = (runStartup env db).ioHandle ∧
    (runStartup env db).ioHandle = some 0 ∧
    (runStartup env db).listening = true ∧
    (stepCheckDb env (stepNginx (initApp db))).wsReady = none := by
  have hlog := runStartup_log env db
  refine ⟨?_, ?_, ?_, rfl, rfl, rfl, rfl⟩ <;> rw [hlog] <;> decide
